import Mathlib

/-!
Verification development for the reconstruction-comparison tool
(`applications/compare_reconstructions.cc`).

The C++ source is shallowly embedded below.  Doubles are modelled by exact
fields: the generic statistics code is polymorphic over a linearly ordered
field (instantiated at `ℚ` where concrete evaluation is wanted), and the
geometric pipeline uses `ℝ` because it involves `sqrt`, `sin`, `cos` and
`arccos`.  Library entry points of Theia that are not part of the single
source file under review (`Histogram`, `FindCommonViewsByName`,
`AlignRotations`, `AlignReconstructions[Robust]`) are modelled from the
design document, and are marked as such in their doc comments.
-/

/-! ## Vectors and matrices (Eigen::Vector3d / Eigen::Matrix3d) -/

/-- A 3-vector of reals, embedding `Eigen::Vector3d`. -/
structure Vec3 where
  x : ℝ
  y : ℝ
  z : ℝ

/-- Euclidean norm, embedding `Eigen::Vector3d::norm()`. -/
noncomputable def Vec3.norm (v : Vec3) : ℝ :=
  Real.sqrt (v.x * v.x + v.y * v.y + v.z * v.z)

/-- Embedding of `Eigen::Vector3d::normalized()` (division by the norm). -/
noncomputable def Vec3.normalized (v : Vec3) : Vec3 :=
  ⟨v.x / v.norm, v.y / v.norm, v.z / v.norm⟩

/-- Componentwise subtraction of 3-vectors. -/
def Vec3.sub (a b : Vec3) : Vec3 :=
  ⟨a.x - b.x, a.y - b.y, a.z - b.z⟩

/-- A 3x3 real matrix, embedding `Eigen::Matrix3d`, row major. -/
structure Mat3 where
  m00 : ℝ
  m01 : ℝ
  m02 : ℝ
  m10 : ℝ
  m11 : ℝ
  m12 : ℝ
  m20 : ℝ
  m21 : ℝ
  m22 : ℝ

/-- Matrix transpose. -/
def Mat3.transpose (m : Mat3) : Mat3 :=
  ⟨m.m00, m.m10, m.m20, m.m01, m.m11, m.m21, m.m02, m.m12, m.m22⟩

/-- Matrix product. -/
def Mat3.mul (a b : Mat3) : Mat3 :=
  ⟨a.m00 * b.m00 + a.m01 * b.m10 + a.m02 * b.m20,
   a.m00 * b.m01 + a.m01 * b.m11 + a.m02 * b.m21,
   a.m00 * b.m02 + a.m01 * b.m12 + a.m02 * b.m22,
   a.m10 * b.m00 + a.m11 * b.m10 + a.m12 * b.m20,
   a.m10 * b.m01 + a.m11 * b.m11 + a.m12 * b.m21,
   a.m10 * b.m02 + a.m11 * b.m12 + a.m12 * b.m22,
   a.m20 * b.m00 + a.m21 * b.m10 + a.m22 * b.m20,
   a.m20 * b.m01 + a.m21 * b.m11 + a.m22 * b.m21,
   a.m20 * b.m02 + a.m21 * b.m12 + a.m22 * b.m22⟩

/-- Matrix trace. -/
def Mat3.trace (m : Mat3) : ℝ := m.m00 + m.m11 + m.m22

/-- Matrix applied to a vector. -/
def Mat3.mulVec (m : Mat3) (v : Vec3) : Vec3 :=
  ⟨m.m00 * v.x + m.m01 * v.y + m.m02 * v.z,
   m.m10 * v.x + m.m11 * v.y + m.m12 * v.z,
   m.m20 * v.x + m.m21 * v.y + m.m22 * v.z⟩

/-- The identity matrix. -/
def Mat3.id : Mat3 := ⟨1, 0, 0, 0, 1, 0, 0, 0, 1⟩

/-- Rodrigues formula: the rotation matrix of `Eigen::AngleAxisd(angle, axis)`
(`AngleAxis::toRotationMatrix`), namely
`cos θ · I + sin θ · K + (1 − cos θ) · a aᵀ` with `K` the cross-product matrix
of the unit axis `a`. -/
noncomputable def angleAxisToMat (angle : ℝ) (a : Vec3) : Mat3 :=
  ⟨Real.cos angle + a.x * a.x * (1 - Real.cos angle),
   a.x * a.y * (1 - Real.cos angle) - a.z * Real.sin angle,
   a.x * a.z * (1 - Real.cos angle) + a.y * Real.sin angle,
   a.y * a.x * (1 - Real.cos angle) + a.z * Real.sin angle,
   Real.cos angle + a.y * a.y * (1 - Real.cos angle),
   a.y * a.z * (1 - Real.cos angle) - a.x * Real.sin angle,
   a.z * a.x * (1 - Real.cos angle) - a.y * Real.sin angle,
   a.z * a.y * (1 - Real.cos angle) + a.x * Real.sin angle,
   Real.cos angle + a.z * a.z * (1 - Real.cos angle)⟩

/-- The rotation angle `Eigen::AngleAxisd(m).angle()` extracts from a rotation
matrix: on actual rotation matrices Eigen's quaternion route returns exactly
the principal angle `arccos ((trace − 1) / 2) ∈ [0, π]`, which is the form we
embed.  The result is in radians. -/
noncomputable def matAngle (m : Mat3) : ℝ :=
  Real.arccos ((m.trace - 1) / 2)

/-- Embedding of `AngularDifference` from the source: build the two rotation
matrices from the angle-axis vectors (`AngleAxisd(r.norm(), r.normalized())`),
form `rotation1_mat.transpose() * rotation2_mat` and return the extracted
angle (`Eigen::AngleAxisd(rotation_loop).angle()`, radians). -/
noncomputable def angularDifference (rotation1 rotation2 : Vec3) : ℝ :=
  matAngle
    ((angleAxisToMat rotation1.norm rotation1.normalized).transpose.mul
      (angleAxisToMat rotation2.norm rotation2.normalized))

/-- Radians-to-degrees conversion (`theia::RadToDeg`); the unit the spec says
the reported rotation errors are expressed in.  The source never applies it. -/
noncomputable def degOfRad (x : ℝ) : ℝ := x * 180 / Real.pi

/-! ## Error statistics (`PrintMeanMedianHistogram` and `theia::Histogram`) -/

/-- The three data that `PrintMeanMedianHistogram` formats into its message:
the mean, the median sample, and the per-bucket histogram counts. -/
structure StatsReport (α : Type) where
  mean : α
  median : α
  histogram : List Nat
deriving DecidableEq

/-- Index of the histogram bucket a value falls in: the number of bucket
edges that are `≤` the value, so bucket `0` is `(-∞, e₁)`, bucket `k` is
`[eₖ, eₖ₊₁)` and bucket `n` is `[eₙ, ∞)`. -/
def bucketIndex {α : Type} [LinearOrder α] (bins : List α) (v : α) : Nat :=
  (bins.takeWhile (fun e => decide (e ≤ v))).length

/-- Modelled from the spec: `theia::Histogram` (library code, not under the
reviewed source file).  The caller-supplied ascending edges `e₁ < … < eₙ`
partition the range into buckets `[0,e₁), [e₁,e₂), …, [eₙ,∞)` (§4.4 of the
design document); the result lists the count of values per bucket. -/
def histogramCounts {α : Type} [LinearOrder α] (bins : List α)
    (values : List α) : List Nat :=
  (List.range (bins.length + 1)).map
    (fun k => values.countP (fun v => decide (bucketIndex bins v = k)))

/-- Embedding of `PrintMeanMedianHistogram`: sum the (already sorted) errors
into the histogram and the mean accumulator, divide the mean by the count and
read the median at index `size() / 2`.  The C++ performs that median read
unconditionally; on an empty vector it reads `sorted_errors[0]` past the end
(undefined behaviour) after computing `0.0 / 0.0` — `none` here marks exactly
that out-of-bounds read, not any typed error path (the C++ has none). -/
def printMeanMedianHistogram {α : Type} [LinearOrderedField α]
    (sorted_errors histogram_bins : List α) : Option (StatsReport α) :=
  match sorted_errors[sorted_errors.length / 2]? with
  | none => none
  | some med =>
      some ⟨sorted_errors.sum / (sorted_errors.length : α), med,
            histogramCounts histogram_bins sorted_errors⟩

/-- Ascending sort, embedding `std::sort` on an error vector (`std::sort`
produces the ascending rearrangement; over a linear order that rearrangement
of the values is unique, so any comparison sort is an exact model). -/
def sortAsc {α : Type} [LinearOrder α] (l : List α) : List α :=
  l.insertionSort (· ≤ ·)

/-! ## Reconstruction data model

The reconstruction store is an external collaborator of the file under
review (spec §6): the source only reads, per named view, an orientation
(`GetOrientationAsAngleAxis`), a position, a focal length, and per track a
view count (`Track::NumViews`).  We embed exactly that read interface. -/

/-- The per-view data the source reads from `theia::Camera`. -/
structure Camera where
  orientation : Vec3
  position : Vec3
  focalLength : ℝ

/-- A reconstruction as the source consumes it: named views with cameras,
and the view-count of each track (`Track::NumViews`). -/
structure Reconstruction where
  views : List (String × Camera)
  trackViewCounts : List Nat

/-- Embedding of `Reconstruction::NumViews`. -/
def Reconstruction.numViews (r : Reconstruction) : Nat := r.views.length

/-- Embedding of `Reconstruction::NumTracks`. -/
def Reconstruction.numTracks (r : Reconstruction) : Nat := r.trackViewCounts.length

/-- Placeholder camera for a name that is absent (the C++ would dereference a
null `View*`; the pipeline only ever looks up names present in both
reconstructions, where this default is never consulted). -/
def defaultCamera : Camera := ⟨⟨0, 0, 0⟩, ⟨0, 0, 0⟩, 0⟩

/-- The `ViewIdFromName` / `View` / `Camera()` lookup chain of the source,
collapsed to a name-indexed camera lookup. -/
def cameraOf (r : Reconstruction) (name : String) : Camera :=
  (List.lookup name r.views).getD defaultCamera

/-- Modelled from the spec: `theia::FindCommonViewsByName` (library code, not
under the reviewed source file).  Returns the names present in both
reconstructions in a deterministic order (§4.1); we keep reconstruction 1's
view order restricted to the names reconstruction 2 also has. -/
def findCommonViewsByName (r1 r2 : Reconstruction) : List String :=
  (r1.views.map Prod.fst).filter (fun n => (r2.views.map Prod.fst).contains n)

/-! ## Similarity alignment -/

/-- A similarity transform (spec §3): rotation, translation, uniform scale. -/
structure Similarity where
  rotation : Mat3
  translation : Vec3
  scale : ℝ

/-- The identity similarity transform. -/
noncomputable def identitySimilarity : Similarity := ⟨Mat3.id, ⟨0, 0, 0⟩, 1⟩

/-- Angle-axis vector of a rotation matrix (matrix logarithm): the principal
angle times the unit axis read off the skew-symmetric part. -/
noncomputable def matToAngleAxis (m : Mat3) : Vec3 :=
  ⟨matAngle m / (2 * Real.sin (matAngle m)) * (m.m21 - m.m12),
   matAngle m / (2 * Real.sin (matAngle m)) * (m.m02 - m.m20),
   matAngle m / (2 * Real.sin (matAngle m)) * (m.m10 - m.m01)⟩

/-- Modelled from the spec: the apply step of §4.3, shared by
`AlignReconstructions` and `AlignReconstructionsRobust` (library code, not
under the reviewed source file): for every pose of reconstruction 2,
`position ← scale · R · position + t` and `orientation ← R · orientation`,
while the focal length is never modified by alignment. -/
noncomputable def applySimilarityCamera (T : Similarity) (c : Camera) : Camera :=
  { orientation :=
      matToAngleAxis
        (T.rotation.mul (angleAxisToMat c.orientation.norm c.orientation.normalized)),
    position :=
      ⟨T.scale * (T.rotation.mulVec c.position).x + T.translation.x,
       T.scale * (T.rotation.mulVec c.position).y + T.translation.y,
       T.scale * (T.rotation.mulVec c.position).z + T.translation.z⟩,
    focalLength := c.focalLength }

/-- Modelled from the spec: applying the estimated similarity transform to the
working copy of reconstruction 2 (§4.3 apply step); tracks are untouched. -/
noncomputable def applySimilarity (T : Similarity) (r : Reconstruction) : Reconstruction :=
  { views := r.views.map (fun p => (p.1, applySimilarityCamera T p.2)),
    trackViewCounts := r.trackViewCounts }

/-- Which estimator the alignment step runs. -/
inductive AlignMode where
  | robust
  | leastSquares
deriving DecidableEq

/-- Default value of the `robust_alignment_threshold` flag
(`DEFINE_double(robust_alignment_threshold, 0.0, ...)`). -/
noncomputable def robustAlignmentThresholdDefault : ℝ := 0

/-- The mode selection of `EvaluateAlignedPoseError`:
`if (FLAGS_robust_alignment_threshold > 0.0)` pick the robust (RANSAC)
estimator, otherwise the closed-form least-squares one. -/
noncomputable def alignModeOf (threshold : ℝ) : AlignMode :=
  if 0 < threshold then AlignMode.robust else AlignMode.leastSquares

/-- The alignment call of `EvaluateAlignedPoseError`: run the estimator the
mode selects and apply the resulting transform to the working copy of
reconstruction 2.  The estimators themselves (`AlignReconstructions`,
`AlignReconstructionsRobust`) are library code not under the reviewed source
file and are passed as parameters; only their similarity-transform output
shape and the apply step are pinned by the spec (§4.3). -/
noncomputable def alignStep
    (estimate : Reconstruction → Reconstruction → Similarity)
    (estimateRobust : ℝ → Reconstruction → Reconstruction → Similarity)
    (threshold : ℝ) (r1 r2 : Reconstruction) : Reconstruction :=
  match alignModeOf threshold with
  | AlignMode.robust => applySimilarity (estimateRobust threshold r1 r2) r2
  | AlignMode.leastSquares => applySimilarity (estimate r1 r2) r2

/-! ## Error vectors and the evaluator -/

/-- The orientations of the named views, in name order (the gather loops of
`EvaluateRotations`). -/
def orientationsOf (r : Reconstruction) (names : List String) : List Vec3 :=
  names.map (fun n => (cameraOf r n).orientation)

/-- The per-view rotation errors of `EvaluateAlignedPoseError`:
`AngularDifference` of the two orientations, one entry per common view name. -/
noncomputable def rotationErrors (r1 r2 : Reconstruction) (names : List String) : List ℝ :=
  names.map (fun n =>
    angularDifference (cameraOf r1 n).orientation (cameraOf r2 n).orientation)

/-- The per-view position errors of `EvaluateAlignedPoseError`:
`(camera1.GetPosition() - camera2.GetPosition()).norm()`. -/
noncomputable def positionErrors (r1 r2 : Reconstruction) (names : List String) : List ℝ :=
  names.map (fun n =>
    ((cameraOf r1 n).position.sub (cameraOf r2 n).position).norm)

/-- The per-view focal length errors of `EvaluateAlignedPoseError`:
`|f1 - f2| / f1`. -/
noncomputable def focalLengthErrors (r1 r2 : Reconstruction) (names : List String) : List ℝ :=
  names.map (fun n =>
    |(cameraOf r1 n).focalLength - (cameraOf r2 n).focalLength| /
      (cameraOf r1 n).focalLength)

/-- The error vector of `EvaluateRotations`: gather the common orientations of
both reconstructions into local sequences, align the second one with
`theia::AlignRotations` (library code, passed as the parameter `alignRots`;
per spec §4.2 it rotates the second sequence in place, so it preserves its
length), then take the angular difference pairwise. -/
noncomputable def rotationAlignErrors
    (alignRots : List Vec3 → List Vec3 → List Vec3)
    (r1 r2 : Reconstruction) (names : List String) : List ℝ :=
  List.zipWith angularDifference (orientationsOf r1 names)
    (alignRots (orientationsOf r1 names) (orientationsOf r2 names))

/-- Histogram bins for rotation errors in the source (`{1,2,5,10,15,20,45}`). -/
noncomputable def rotationHistogramBins : List ℝ := [1, 2, 5, 10, 15, 20, 45]

/-- Histogram bins for position errors in the source. -/
noncomputable def positionHistogramBins : List ℝ := [1, 5, 10, 50, 100, 1000]

/-- Histogram bins for focal length errors in the source. -/
noncomputable def focalLengthHistogramBins : List ℝ :=
  [0.01, 0.05, 0.2, 0.5, 1, 10, 100]

/-- Histogram bins for track lengths in the source. -/
def trackLengthHistogramBins : List Nat :=
  [2, 3, 4, 5, 6, 7, 8, 9, 10, 15, 20, 25, 50]

/-- One `LOG(INFO)` report of `main` and its helpers, by content. -/
inductive ReportEntry where
  | cameraCounts (numViews1 numViews2 numCommon : Nat)
  | pointCounts (numTracks1 numTracks2 : Nat)
  | rotationAlignStats (s : Option (StatsReport ℝ))
  | alignedRotationStats (s : Option (StatsReport ℝ))
  | positionStats (s : Option (StatsReport ℝ))
  | focalLengthStats (s : Option (StatsReport ℝ))
  | trackLengthHistogram (counts : List Nat)

/-- Whether a report entry is the track-length histogram report. -/
def ReportEntry.isTrackLengthHistogram : ReportEntry → Bool
  | ReportEntry.trackLengthHistogram _ => true
  | _ => false

/-- Whether a report entry emits post-alignment per-correspondence error
statistics values (a produced mean/median/histogram, as opposed to the C++
undefined behaviour marker `none` or a non-statistics entry). -/
def ReportEntry.emitsStatistics : ReportEntry → Bool
  | ReportEntry.rotationAlignStats s => s.isSome
  | ReportEntry.alignedRotationStats s => s.isSome
  | ReportEntry.positionStats s => s.isSome
  | ReportEntry.focalLengthStats s => s.isSome
  | _ => false

/-- Embedding of `EvaluateRotations`: both reconstructions are taken by const
reference (here: by value, never returned), the orientations are copied into
local sequences, the local copy of the second is aligned, and the sorted
angular differences are reported. -/
noncomputable def evaluateRotations
    (alignRots : List Vec3 → List Vec3 → List Vec3)
    (r1 r2 : Reconstruction) (common_view_names : List String) : List ReportEntry :=
  [ReportEntry.rotationAlignStats
    (printMeanMedianHistogram
      (sortAsc (rotationAlignErrors alignRots r1 r2 common_view_names))
      rotationHistogramBins)]

/-- Embedding of `EvaluateAlignedPoseError`: align the working copy of
reconstruction 2 (the returned reconstruction models the in-place mutation
through the `Reconstruction*` parameter), then build, sort and report the
three error vectors.  There is no correspondence-count check and no failure
path: the report entries are produced unconditionally. -/
noncomputable def evaluateAlignedPoseError
    (estimate : Reconstruction → Reconstruction → Similarity)
    (estimateRobust : ℝ → Reconstruction → Reconstruction → Similarity)
    (threshold : ℝ) (common_view_names : List String)
    (r1 r2 : Reconstruction) : Reconstruction × List ReportEntry :=
  (alignStep estimate estimateRobust threshold r1 r2,
   [ReportEntry.alignedRotationStats
      (printMeanMedianHistogram
        (sortAsc (rotationErrors r1 (alignStep estimate estimateRobust threshold r1 r2)
          common_view_names))
        rotationHistogramBins),
    ReportEntry.positionStats
      (printMeanMedianHistogram
        (sortAsc (positionErrors r1 (alignStep estimate estimateRobust threshold r1 r2)
          common_view_names))
        positionHistogramBins),
    ReportEntry.focalLengthStats
      (printMeanMedianHistogram
        (sortAsc (focalLengthErrors r1 (alignStep estimate estimateRobust threshold r1 r2)
          common_view_names))
        focalLengthHistogramBins)])

/-- Embedding of `ComputeTrackLengthHistogram`: histogram of `NumViews` per
track.  Defined in the source — but never called by `main`. -/
def computeTrackLengthHistogram (r : Reconstruction) : ReportEntry :=
  ReportEntry.trackLengthHistogram
    (histogramCounts trackLengthHistogramBins r.trackViewCounts)

/-- Embedding of `main` (after the excluded file reading): find the common
view names, report the camera and point counts, run `EvaluateRotations` on
the unmodified reconstructions, then `EvaluateAlignedPoseError` on
reconstruction 1 and the working copy of reconstruction 2, and return.
`ComputeTrackLengthHistogram` is never invoked. -/
noncomputable def mainReport
    (alignRots : List Vec3 → List Vec3 → List Vec3)
    (estimate : Reconstruction → Reconstruction → Similarity)
    (estimateRobust : ℝ → Reconstruction → Reconstruction → Similarity)
    (threshold : ℝ) (r1 r2 : Reconstruction) : List ReportEntry :=
  ReportEntry.cameraCounts r1.numViews r2.numViews
      (findCommonViewsByName r1 r2).length ::
  ReportEntry.pointCounts r1.numTracks r2.numTracks ::
  (evaluateRotations alignRots r1 r2 (findCommonViewsByName r1 r2) ++
   (evaluateAlignedPoseError estimate estimateRobust threshold
     (findCommonViewsByName r1 r2) r1 r2).2)

/-! ## Concrete instances used by witnesses -/

/-- A concrete camera. -/
noncomputable def cameraA1 : Camera := ⟨⟨0, 0, 1⟩, ⟨0, 0, 0⟩, 1⟩

/-- A concrete camera. -/
noncomputable def cameraA2 : Camera := ⟨⟨0, 1, 0⟩, ⟨1, 0, 0⟩, 2⟩

/-- A concrete camera. -/
noncomputable def cameraB1 : Camera := ⟨⟨0, 0, 2⟩, ⟨0, 1, 0⟩, 1⟩

/-- A concrete camera. -/
noncomputable def cameraB2 : Camera := ⟨⟨1, 0, 0⟩, ⟨1, 1, 0⟩, 2⟩

/-- A concrete reconstruction with two named views and two tracks. -/
noncomputable def reconA : Reconstruction :=
  ⟨[("a", cameraA1), ("b", cameraA2)], [2, 3]⟩

/-- A concrete reconstruction sharing both view names with `reconA`. -/
noncomputable def reconB : Reconstruction :=
  ⟨[("a", cameraB1), ("b", cameraB2)], [2]⟩

/-- A concrete rotation aligner satisfying the in-place (length preserving)
library contract: the trivial alignment by the identity rotation. -/
def alignRotsId : List Vec3 → List Vec3 → List Vec3 := fun _ rots2 => rots2

/-- A concrete non-robust estimator: always the identity transform. -/
noncomputable def estimateId : Reconstruction → Reconstruction → Similarity :=
  fun _ _ => identitySimilarity

/-- A concrete robust estimator, distinguishable from `estimateId`: doubles
the scale. -/
noncomputable def estimateRobustScale2 :
    ℝ → Reconstruction → Reconstruction → Similarity :=
  fun _ _ _ => ⟨Mat3.id, ⟨0, 0, 0⟩, 2⟩

/-! ## Helper lemmas -/

/-- When the median index is in range, `PrintMeanMedianHistogram` produces the
mean, that median sample and the histogram counts. -/
lemma pmmh_eq_some {α : Type} [LinearOrderedField α] (l bins : List α) (x : α)
    (hx : l[l.length / 2]? = some x) :
    printMeanMedianHistogram l bins =
      some ⟨l.sum / (l.length : α), x, histogramCounts bins l⟩ := by
  unfold printMeanMedianHistogram
  rw [hx]

/-- On a non-empty vector the statistics are always produced (the median read
is in bounds). -/
lemma pmmh_isSome {α : Type} [LinearOrderedField α] (l bins : List α)
    (h : 0 < l.length) :
    (printMeanMedianHistogram l bins).isSome = true := by
  unfold printMeanMedianHistogram
  have hlt : l.length / 2 < l.length := Nat.div_lt_self h one_lt_two
  rw [List.getElem?_eq_getElem hlt]
  rfl

/-- The median component of the statistics is exactly the input sample at
index `length / 2`. -/
lemma pmmh_median_map {α : Type} [LinearOrderedField α] (l bins : List α) :
    Option.map StatsReport.median (printMeanMedianHistogram l bins) =
      l[l.length / 2]? := by
  unfold printMeanMedianHistogram
  cases hx : l[l.length / 2]? <;> simp [hx]

/-- Sorting preserves the number of entries. -/
lemma sortAsc_length {α : Type} [LinearOrder α] (l : List α) :
    (sortAsc l).length = l.length :=
  List.length_insertionSort _ l

/-- The norm of a vector along the z-axis. -/
lemma vec3_norm_z (a : ℝ) (ha : 0 ≤ a) : Vec3.norm ⟨0, 0, a⟩ = a := by
  show Real.sqrt (0 * 0 + 0 * 0 + a * a) = a
  rw [show (0 * 0 + 0 * 0 + a * a : ℝ) = a * a by ring]
  exact Real.sqrt_mul_self ha

/-- Normalizing a vector along the positive z-axis gives the unit z vector. -/
lemma vec3_normalized_z (a : ℝ) (ha : 0 < a) :
    Vec3.normalized ⟨0, 0, a⟩ = ⟨0, 0, 1⟩ := by
  unfold Vec3.normalized
  rw [vec3_norm_z a ha.le]
  simp [div_self ha.ne']

/-- Rodrigues matrix of a quarter turn about the z-axis. -/
lemma angleAxisToMat_z_pi_div_two :
    angleAxisToMat (Real.pi / 2) ⟨0, 0, 1⟩ = ⟨0, -1, 0, 1, 0, 0, 0, 0, 1⟩ := by
  unfold angleAxisToMat
  rw [Real.cos_pi_div_two, Real.sin_pi_div_two]
  norm_num [Mat3.mk.injEq]

/-- Rodrigues matrix of a half turn about the z-axis. -/
lemma angleAxisToMat_z_pi :
    angleAxisToMat Real.pi ⟨0, 0, 1⟩ = ⟨-1, 0, 0, 0, -1, 0, 0, 0, 1⟩ := by
  unfold angleAxisToMat
  rw [Real.cos_pi, Real.sin_pi]
  norm_num [Mat3.mk.injEq]

/-- All three statistics entries of `EvaluateAlignedPoseError` are emitted
with produced values whenever there is at least one correspondence: the
source has no degenerate-input check of any kind. -/
lemma evalAPE_emits_all_three
    (e : Reconstruction → Reconstruction → Similarity)
    (er : ℝ → Reconstruction → Reconstruction → Similarity)
    (t : ℝ) (common : List String) (r1 r2 : Reconstruction)
    (hne : common ≠ []) :
    (evaluateAlignedPoseError e er t common r1 r2).2.countP
      ReportEntry.emitsStatistics = 3 := by
  have hpos : 0 < common.length := List.length_pos.mpr hne
  have h1 : 0 < (sortAsc (rotationErrors r1 (alignStep e er t r1 r2) common)).length := by
    rw [sortAsc_length]; simpa [rotationErrors] using hpos
  have h2 : 0 < (sortAsc (positionErrors r1 (alignStep e er t r1 r2) common)).length := by
    rw [sortAsc_length]; simpa [positionErrors] using hpos
  have h3 : 0 < (sortAsc (focalLengthErrors r1 (alignStep e er t r1 r2) common)).length := by
    rw [sortAsc_length]; simpa [focalLengthErrors] using hpos
  simp [evaluateAlignedPoseError, List.countP, List.countP.go,
        ReportEntry.emitsStatistics,
        pmmh_isSome _ rotationHistogramBins h1,
        pmmh_isSome _ positionHistogramBins h2,
        pmmh_isSome _ focalLengthHistogramBins h3]

/-! ## Claims -/

/-- C1: for the empty error vector the statistics computation does NOT report
a typed DegenerateInput failure — `PrintMeanMedianHistogram` has no failure
path at all.  It divides `0.0` by `0.0` (NaN) and then evaluates
`sorted_errors[0]` on an empty vector, an out-of-bounds read (undefined
behaviour), which `none` marks in the embedding.  The claim's required
behaviour (fail cleanly, report DegenerateInput) is what the spec demands
(§4.4, §7, §8) and the code does not implement: a code bug. -/
theorem c1_empty_vector_out_of_bounds :
    printMeanMedianHistogram ([] : List ℚ) [1, 2, 5] = none := by decide

/-- C2: the per-view rotation error the program reports is NOT the angular
difference in degrees; it is the angular difference in radians.
`AngularDifference` returns `Eigen::AngleAxisd(rotation_loop).angle()` with no
radian-to-degree conversion, even though the error vectors are named
`rotation_error_degrees` and the histogram bins `{1,2,5,10,15,20,45}` are
degree-scaled (a radian value never exceeds π ≈ 3.14, leaving every bucket
from 5 up unreachable): a code bug.  Concretely, for the quarter-turn and
half-turn about the z-axis the angular difference is 90 degrees, but the code
reports π/2 ≈ 1.5708, which is not 90. -/
theorem c2_rotation_error_radians_not_degrees :
    angularDifference ⟨0, 0, Real.pi / 2⟩ ⟨0, 0, Real.pi⟩ = Real.pi / 2 ∧
    degOfRad (Real.pi / 2) = 90 ∧ (Real.pi / 2 : ℝ) ≠ 90 := by
  refine ⟨?_, ?_, ?_⟩
  · unfold angularDifference
    rw [vec3_norm_z _ (by positivity), vec3_norm_z _ Real.pi_pos.le,
        vec3_normalized_z _ (by positivity), vec3_normalized_z _ Real.pi_pos,
        angleAxisToMat_z_pi_div_two, angleAxisToMat_z_pi]
    unfold Mat3.transpose Mat3.mul matAngle Mat3.trace
    norm_num
  · unfold degOfRad
    field_simp
    ring
  · have h := Real.pi_lt_d2
    intro hcontra
    nlinarith

/-- C3 counterexample: a concrete run of the program (two reconstructions
with two common views) whose report contains no track-length histogram entry,
refuting the claim that every run reports the track-length histogram after
the error statistics — `ComputeTrackLengthHistogram` is defined in the source
but `main` never calls it. -/
theorem c3_counterexample_no_track_length_report :
    (mainReport alignRotsId estimateId estimateRobustScale2 0 reconA reconB).filter
      ReportEntry.isTrackLengthHistogram = [] := by
  simp [mainReport, evaluateRotations, evaluateAlignedPoseError,
        ReportEntry.isTrackLengthHistogram, List.filter]

/-- C3 amended: no run of the evaluator ever reports the track-length
histogram.  `ComputeTrackLengthHistogram` exists in the source but `main`
returns right after `EvaluateAlignedPoseError` without invoking it, so the
report never contains a track-length entry, for any inputs. -/
theorem c3_track_length_never_reported
    (aR : List Vec3 → List Vec3 → List Vec3)
    (e : Reconstruction → Reconstruction → Similarity)
    (er : ℝ → Reconstruction → Reconstruction → Similarity)
    (t : ℝ) (r1 r2 : Reconstruction) :
    (mainReport aR e er t r1 r2).filter ReportEntry.isTrackLengthHistogram = [] := by
  simp [mainReport, evaluateRotations, evaluateAlignedPoseError,
        ReportEntry.isTrackLengthHistogram, List.filter]

/-- C4 counterexample: with exactly two correspondences (fewer than the three
a similarity transform needs), the evaluator emits all three error-statistics
reports with produced values, refuting the claim that it aborts the metric
and reports insufficient data.  `EvaluateAlignedPoseError` contains no
correspondence-count check, and the alignment calls return `void`, so no
typed DegenerateInput failure can even reach the evaluator. -/
theorem c4_counterexample_stats_emitted_below_minimum :
    (["a", "b"] : List String).length < 3 ∧
    (evaluateAlignedPoseError estimateId estimateRobustScale2 0 ["a", "b"]
      reconA reconB).2.countP ReportEntry.emitsStatistics = 3 :=
  ⟨by decide,
   evalAPE_emits_all_three estimateId estimateRobustScale2 0 ["a", "b"]
     reconA reconB (by decide)⟩

/-- C4 amended: if fewer than 3 (but at least 1) correspondences are given,
the evaluator performs no degenerate-input check: it runs the alignment
unconditionally and emits all three error statistics computed from the
available correspondences, with no DegenerateInput failure and no
insufficient-data report (with 0 correspondences it instead hits the empty
vector out-of-bounds read of C1). -/
theorem c4_no_insufficient_data_check
    (e : Reconstruction → Reconstruction → Similarity)
    (er : ℝ → Reconstruction → Reconstruction → Similarity)
    (t : ℝ) (common : List String) (r1 r2 : Reconstruction)
    (hne : common ≠ []) (_hlt : common.length < 3) :
    (evaluateAlignedPoseError e er t common r1 r2).2.countP
      ReportEntry.emitsStatistics = 3 :=
  evalAPE_emits_all_three e er t common r1 r2 hne

/-- C4 witness: the amended theorem applied at the concrete two-correspondence
input. -/
theorem c4_witness_two_correspondences :
    (evaluateAlignedPoseError estimateId estimateRobustScale2 1 ["a", "b"]
      reconA reconB).2.countP ReportEntry.emitsStatistics = 3 :=
  c4_no_insufficient_data_check estimateId estimateRobustScale2 1 ["a", "b"]
    reconA reconB (by decide) (by decide)

/-- C5 counterexample: on the ascending even-length vector `[1,2,3,4]` the
code reports the median `3`, the element at index `4 / 2 = 2` — the UPPER
middle element — whereas the lower-middle element the claim names is `2`.
The claim's index formula is right but its "lower-middle convention" label is
wrong for even lengths. -/
theorem c5_counterexample_even_length_upper_middle :
    Option.map StatsReport.median
      (printMeanMedianHistogram ([1, 2, 3, 4] : List ℚ) [1, 2, 5]) = some 3 ∧
    (3 : ℚ) ≠ 2 :=
  ⟨by decide, by decide⟩

/-- C5 amended: for every non-empty error vector the reported median is the
element at index `len / 2` (integer division) of the ascending-sorted vector,
with no interpolation — which for even lengths is the upper-middle element
(the higher of the two middle samples), not the lower-middle one. -/
theorem c5_median_at_half_length (l bins : List ℚ) (h : l ≠ []) :
    Option.map StatsReport.median
        (printMeanMedianHistogram (sortAsc l) bins) =
      (sortAsc l)[(sortAsc l).length / 2]? ∧
    ((sortAsc l)[(sortAsc l).length / 2]?).isSome = true := by
  refine ⟨pmmh_median_map _ _, ?_⟩
  have hpos : 0 < (sortAsc l).length := by
    rw [sortAsc_length]
    exact List.length_pos.mpr h
  rw [List.getElem?_eq_getElem (Nat.div_lt_self hpos one_lt_two)]
  rfl

/-- C5 witness: the amended theorem applied to `[3,1,2,4]`, whose ascending
sort is `[1,2,3,4]` with reported median the index-2 element `3`. -/
theorem c5_witness_concrete_median :
    Option.map StatsReport.median
      (printMeanMedianHistogram (sortAsc ([3, 1, 2, 4] : List ℚ)) [1, 2, 5]) =
    some 3 := by
  rw [(c5_median_at_half_length [3, 1, 2, 4] [1, 2, 5] (by decide)).1]
  decide

/-- C6: on the error vector `[1,2,3,4,5]` with bucket edges `[1,2,5]` the
statistics computation returns mean `3`, median `3` and bucket counts
`0` below 1, `1` in `[1,2)`, `3` in `[2,5)` and `1` at or above `5`
(with the bucket convention of the spec, which the histogram model follows). -/
theorem c6_example_statistics :
    printMeanMedianHistogram ([1, 2, 3, 4, 5] : List ℚ) [1, 2, 5] =
      some ⟨3, 3, [0, 1, 3, 1]⟩ := by
  rw [pmmh_eq_some ([1, 2, 3, 4, 5] : List ℚ) [1, 2, 5] 3 (by rfl)]
  have hmean :
      (([1, 2, 3, 4, 5] : List ℚ).sum / ((([1, 2, 3, 4, 5] : List ℚ).length : ℚ))) = 3 := by
    norm_num
  rw [hmean]
  decide

/-- C7: full pose alignment runs the robust (RANSAC) estimator exactly when
the configured threshold is greater than 0; a threshold of 0 — also the
flag's default — or below selects the non-robust closed-form least-squares
alignment.  The last conjunct ties the mode selection to the alignment the
evaluator actually performs. -/
theorem c7_robust_iff_positive_threshold (t : ℝ)
    (e : Reconstruction → Reconstruction → Similarity)
    (er : ℝ → Reconstruction → Reconstruction → Similarity)
    (common : List String) (r1 r2 : Reconstruction) :
    (alignModeOf t = AlignMode.robust ↔ 0 < t) ∧
    (0 < t → alignStep e er t r1 r2 = applySimilarity (er t r1 r2) r2) ∧
    (t ≤ 0 → alignStep e er t r1 r2 = applySimilarity (e r1 r2) r2) ∧
    robustAlignmentThresholdDefault = 0 ∧
    (evaluateAlignedPoseError e er t common r1 r2).1 =
      alignStep e er t r1 r2 := by
  refine ⟨?_, ?_, ?_, rfl, rfl⟩
  · unfold alignModeOf
    by_cases h : 0 < t <;> simp [h]
  · intro h
    unfold alignStep alignModeOf
    simp [h]
  · intro h
    unfold alignStep alignModeOf
    rw [if_neg (not_lt.mpr h)]

/-- C7 witness: with threshold 1 the alignment applies the robust estimator's
transform. -/
theorem c7_witness_threshold_one :
    alignStep estimateId estimateRobustScale2 1 reconA reconB =
      applySimilarity (estimateRobustScale2 1 reconA reconB) reconB :=
  (c7_robust_iff_positive_threshold 1 estimateId estimateRobustScale2 []
    reconA reconB).2.1 (by norm_num)

/-- C8: every error vector — the rotation-only alignment errors, and the
post-alignment rotation, position and focal-length errors — has exactly one
entry per correspondence (its length is the size of the common-view name
list; for the rotation-only vector this uses the library contract, stated by
the spec, that `AlignRotations` rotates its second argument in place and so
preserves its length), and each vector is sorted into ascending order before
any statistic is computed from it. -/
theorem c8_error_vector_length_and_sorted
    (aR : List Vec3 → List Vec3 → List Vec3)
    (hA : ∀ a b, (aR a b).length = b.length)
    (e : Reconstruction → Reconstruction → Similarity)
    (er : ℝ → Reconstruction → Reconstruction → Similarity)
    (t : ℝ) (common : List String) (r1 r2 : Reconstruction) :
    (rotationAlignErrors aR r1 r2 common).length = common.length ∧
    (rotationErrors r1 (alignStep e er t r1 r2) common).length = common.length ∧
    (positionErrors r1 (alignStep e er t r1 r2) common).length = common.length ∧
    (focalLengthErrors r1 (alignStep e er t r1 r2) common).length = common.length ∧
    List.Sorted (fun a b => a ≤ b)
      (sortAsc (rotationAlignErrors aR r1 r2 common)) ∧
    List.Sorted (fun a b => a ≤ b)
      (sortAsc (rotationErrors r1 (alignStep e er t r1 r2) common)) ∧
    List.Sorted (fun a b => a ≤ b)
      (sortAsc (positionErrors r1 (alignStep e er t r1 r2) common)) ∧
    List.Sorted (fun a b => a ≤ b)
      (sortAsc (focalLengthErrors r1 (alignStep e er t r1 r2) common)) := by
  refine ⟨?_, by simp [rotationErrors], by simp [positionErrors],
          by simp [focalLengthErrors], ?_, ?_, ?_, ?_⟩
  · simp [rotationAlignErrors, hA, orientationsOf]
  all_goals exact List.sorted_insertionSort _ _

/-- C8 witness: the length invariant at a concrete two-correspondence input
with the trivial (identity) rotation aligner. -/
theorem c8_witness_concrete_lengths :
    (rotationAlignErrors alignRotsId reconA reconB ["a", "b"]).length =
      (["a", "b"] : List String).length :=
  (c8_error_vector_length_and_sorted alignRotsId (fun _ _ => rfl)
    estimateId estimateRobustScale2 0 ["a", "b"] reconA reconB).1

/-- C9: full pose alignment mutates only the working copy of reconstruction 2
and never changes any view's focal length: the aligned reconstruction keeps
every view name and every focal length (and the track data) of the input
reconstruction 2, whatever similarity transform either estimator produced,
and the evaluator's output working copy is exactly that aligned
reconstruction.  Reconstruction 1 is taken by const reference in the source
(by value here, never returned), so it cannot be modified. -/
theorem c9_alignment_preserves_focal_lengths
    (e : Reconstruction → Reconstruction → Similarity)
    (er : ℝ → Reconstruction → Reconstruction → Similarity)
    (t : ℝ) (r1 r2 : Reconstruction) :
    (alignStep e er t r1 r2).views.map (fun p => (p.1, p.2.focalLength)) =
      r2.views.map (fun p => (p.1, p.2.focalLength)) ∧
    (alignStep e er t r1 r2).trackViewCounts = r2.trackViewCounts ∧
    ∀ common, (evaluateAlignedPoseError e er t common r1 r2).1 =
      alignStep e er t r1 r2 := by
  refine ⟨?_, ?_, fun common => rfl⟩ <;>
    (unfold alignStep; cases alignModeOf t <;>
      simp [applySimilarity, applySimilarityCamera])

/-- C10: the rotation-only evaluation mutates neither reconstruction.
`EvaluateRotations` takes both reconstructions by const reference, copies the
common views' orientations into local sequences, and aligns and compares only
those local copies (first conjunct: its report is computed from the aligner
applied to the extracted orientation lists).  Consequently `main`'s
subsequent full pose alignment consumes the original reconstruction objects —
in particular reconstruction 2 with its original, un-rotated orientations
(second and third conjuncts). -/
theorem c10_rotation_evaluation_pure
    (aR : List Vec3 → List Vec3 → List Vec3)
    (e : Reconstruction → Reconstruction → Similarity)
    (er : ℝ → Reconstruction → Reconstruction → Similarity)
    (t : ℝ) (r1 r2 : Reconstruction) :
    evaluateRotations aR r1 r2 (findCommonViewsByName r1 r2) =
      [ReportEntry.rotationAlignStats
        (printMeanMedianHistogram
          (sortAsc (List.zipWith angularDifference
            (orientationsOf r1 (findCommonViewsByName r1 r2))
            (aR (orientationsOf r1 (findCommonViewsByName r1 r2))
                (orientationsOf r2 (findCommonViewsByName r1 r2)))))
          rotationHistogramBins)] ∧
    mainReport aR e er t r1 r2 =
      ReportEntry.cameraCounts r1.numViews r2.numViews
          (findCommonViewsByName r1 r2).length ::
      ReportEntry.pointCounts r1.numTracks r2.numTracks ::
      (evaluateRotations aR r1 r2 (findCommonViewsByName r1 r2) ++
       (evaluateAlignedPoseError e er t (findCommonViewsByName r1 r2) r1 r2).2) ∧
    (evaluateAlignedPoseError e er t (findCommonViewsByName r1 r2) r1 r2).1 =
      alignStep e er t r1 r2 :=
  ⟨rfl, rfl, rfl⟩
